import Mathlib

/-!
# Verification of `squidnote_unpack.py`

Shallow embedding of the SquidNote backup extractor (`src/squidnote_unpack.py`)
and proofs about its record selection, dependency resolution and container
synthesis logic.

Modelling conventions:

* A zip archive is modelled by the list of its member names, in write order for
  the output archive; for the source archive only membership is consulted
  (`ZipFile.open(name, 'r')` succeeds iff the name is a member, otherwise it
  raises `KeyError`, modelled as a `missingMember` error).
* SQLite tables are lists of typed rows in table order; a `SELECT ... WHERE`
  query without `ORDER BY` is modelled as `List.filter` in table order, and
  `ORDER BY modified ASC` as a stable sort by the `modified` key.
* Python's `datetime.fromtimestamp(ts/1000.0).strftime(...)` formats the
  timestamp in the local timezone of the environment; the environment is
  modelled by an explicit UTC offset `off` in seconds (0 = UTC).
* Python's `list(set(xs))` produces the distinct elements of `xs` in an
  unspecified order; it is modelled by `List.dedup` (any fixed enumeration of
  the distinct elements is a faithful refinement, and all properties proved
  below depend only on membership and duplicate-freedom).
* Millisecond-to-second conversion `ts/1000.0` feeds `fromtimestamp`, whose
  `strftime` output depends only on the floor of the resulting seconds value,
  modelled by integer floor division.
-/

/-! ## Source database rows (source schema, §6 of the spec) -/

structure NoteRow where
  id : String
  name : String
  modified : Int
deriving DecidableEq

structure PageRow where
  id : String
  noteId : String
  created : Int
  modified : Int
  pageNum : Int
deriving DecidableEq

structure ImageRow where
  imageId : String
  pageId : String
  toDelete : Int
deriving DecidableEq

structure DocumentRow where
  documentId : String
  noteId : String
deriving DecidableEq

/-- The source `papyrus.db` relational store: one list of rows per table that
the program reads. -/
structure SourceDB where
  notes : List NoteRow
  pages : List PageRow
  images : List ImageRow
  documents : List DocumentRow
deriving DecidableEq

/-! ## Local-time formatting (`datetime.fromtimestamp(...).strftime(...)`) -/

/-- Civil date from days since the Unix epoch (proleptic Gregorian calendar,
Howard Hinnant's `civil_from_days` algorithm, which is what POSIX local-time
conversion computes after applying the UTC offset). -/
def civilFromDays (z0 : Int) : Int × Int × Int :=
  let z := z0 + 719468
  let era := Int.ediv z 146097
  let doe := z - era * 146097
  let yoe := Int.ediv (doe - Int.ediv doe 1460 + Int.ediv doe 36524 - Int.ediv doe 146096) 365
  let y := yoe + era * 400
  let doy := doe - (365 * yoe + Int.ediv yoe 4 - Int.ediv yoe 100)
  let mp := Int.ediv (5 * doy + 2) 153
  let d := doy - Int.ediv (153 * mp + 2) 5 + 1
  let m := mp + (if mp < 10 then 3 else -9)
  (y + (if m ≤ 2 then 1 else 0), m, d)

/-- A broken-down local time, as produced by `datetime.fromtimestamp`. -/
structure CivilTime where
  year : Int
  month : Int
  day : Int
  hour : Int
  minute : Int
  second : Int
deriving DecidableEq

/-- `datetime.datetime.fromtimestamp(ts/1000.0)` for a millisecond timestamp
`ts`, in an environment whose local timezone is `off` seconds east of UTC. -/
def localCivil (ts : Int) (off : Int) : CivilTime :=
  let secs := Int.ediv ts 1000 + off
  let days := Int.ediv secs 86400
  let tod := Int.emod secs 86400
  let ymd := civilFromDays days
  { year := ymd.1
    month := ymd.2.1
    day := ymd.2.2
    hour := Int.ediv tod 3600
    minute := Int.ediv (Int.emod tod 3600) 60
    second := Int.emod tod 60 }

/-- Zero-padded decimal rendering of a (non-negative) field, width `w`
(`%Y`, `%m`, `%d`, `%H`, `%M`, `%S` and Python's `{:04d}`). -/
def padNum (w : Nat) (n : Int) : String :=
  let s := toString n.toNat
  String.mk (List.replicate (w - s.length) '0') ++ s

/-- `strftime('%Y%m%d-%H%M%S')`. -/
def strftimeCompact (c : CivilTime) : String :=
  padNum 4 c.year ++ padNum 2 c.month ++ padNum 2 c.day ++ "-" ++
    padNum 2 c.hour ++ padNum 2 c.minute ++ padNum 2 c.second

/-- `strftime('%Y-%m-%d %H:%M:%S')`. -/
def strftimeDisplay (c : CivilTime) : String :=
  padNum 4 c.year ++ "-" ++ padNum 2 c.month ++ "-" ++ padNum 2 c.day ++ " " ++
    padNum 2 c.hour ++ ":" ++ padNum 2 c.minute ++ ":" ++ padNum 2 c.second

/-! ## Record selection (`main`, lines 173–192) -/

/-- Display name of a note: the raw name, or, when the name is empty (falsy),
`'Untitled_' + fromtimestamp(ts/1000.0).strftime('%Y%m%d-%H%M%S')`. -/
def dispName (off : Int) (r : NoteRow) : String :=
  if r.name = "" then "Untitled_" ++ strftimeCompact (localCivil r.modified off)
  else r.name

/-- Formatted modification time
`fromtimestamp(ts/1000.0).strftime('%Y-%m-%d %H:%M:%S')`. -/
def mtimeOf (off : Int) (r : NoteRow) : String :=
  strftimeDisplay (localCivil r.modified off)

/-- A compiled selection pattern, abstracted as its `re.match` (anchored at the
start, not full-string) acceptance function on strings. -/
def Pattern : Type := String → Bool

/-- The pattern compiled from `'.*'`, used when no `--regex` is given:
`re.match('.*', s)` succeeds on every string. -/
def matchAll : Pattern := fun _ => true

/-- The `ORDER BY modified ASC` comparison key. -/
def noteLE (a b : NoteRow) : Prop :=
  a.modified ≤ b.modified

instance : DecidableRel noteLE := fun a b => Int.decLe a.modified b.modified

instance : IsTotal NoteRow noteLE :=
  ⟨fun a b => Int.le_total a.modified b.modified⟩

instance : IsTrans NoteRow noteLE :=
  ⟨fun _ _ _ h1 h2 => Int.le_trans h1 h2⟩

/-- `SELECT id, name, modified FROM note ORDER BY modified ASC`: the note table
stably sorted by ascending `modified`. -/
def sortNotes (l : List NoteRow) : List NoteRow :=
  List.insertionSort noteLE l

/-- One entry of `note_list`: the tuple `(uuid, nn, mtime, ts)` appended at
line 183. -/
structure NoteEntry where
  uuid : String
  nn : String
  mtime : String
  ts : Int
deriving DecidableEq

/-- Line 181: `re.match(regex, uuid) or re.match(regex, nn) or
re.match(regex, mtime)`, with `nn` already name-fixed. -/
def selectedNote (off : Int) (p : Pattern) (r : NoteRow) : Bool :=
  p r.id || p (dispName off r) || p (mtimeOf off r)

/-- The `note_list` tuple built for a selected row. -/
def noteEntry (off : Int) (r : NoteRow) : NoteEntry :=
  { uuid := r.id, nn := dispName off r, mtime := mtimeOf off r, ts := r.modified }

/-- The selection loop of lines 176–183: walk the query results (sorted by
`modified`), fix empty names, and keep the rows the pattern selects. -/
def noteListOf (off : Int) (p : Pattern) (db : SourceDB) : List NoteEntry :=
  (sortNotes db.notes).filterMap fun r =>
    if selectedNote off p r then some (noteEntry off r) else none

/-- One listing line (line 192):
`print(f'{i+1:04d}/{n_notes:04d}', uuid, f'"{mtime}"', f'"{nn}"')`. -/
def listingLine (total : Nat) (i : Nat) (e : NoteEntry) : String :=
  padNum 4 (Int.ofNat (i + 1)) ++ "/" ++ padNum 4 (Int.ofNat total) ++ " " ++
    e.uuid ++ " \"" ++ e.mtime ++ "\" \"" ++ e.nn ++ "\""

/-- The full `--list` output, one line per selected note. -/
def listingLines (nl : List NoteEntry) : List String :=
  nl.enum.map fun ie => listingLine nl.length ie.1 ie.2

/-! ## Output filename (`slugify`, lines 95–116) -/

/-- Python `\w` on the ASCII fragment: `[A-Za-z0-9_]`. -/
def isWordChar (c : Char) : Bool :=
  ('a' ≤ c && c ≤ 'z') || ('A' ≤ c && c ≤ 'Z') || ('0' ≤ c && c ≤ '9') || c = '_'

/-- Characters stripped from the ends: `[-_/]` (lines 113–115). -/
def isStripChar (c : Char) : Bool :=
  c = '-' || c = '_' || c = '/'

/-- `slugify` (lines 95–116) on the ASCII fragment: NFKD normalisation followed
by `encode('ascii','ignore')` is the identity on ASCII input and drops
non-ASCII code points here; then every character outside `[-\w]` is replaced by
`'_'` and leading/trailing `[-_/]` runs are stripped. -/
def slugify (v : String) : String :=
  let cs := v.toList.filter fun c => c.toNat < 128
  let cs := cs.map fun c => if c = '-' || isWordChar c then c else '_'
  let cs := cs.dropWhile isStripChar
  let cs := (cs.reverse.dropWhile isStripChar).reverse
  String.mk cs

/-! ## Per-record queries (`main`, lines 279–308) -/

/-- `SELECT documentId, noteId FROM document WHERE noteId IS "<uuid>"`. -/
def queryDocuments (db : SourceDB) (uuid : String) : List DocumentRow :=
  db.documents.filter fun d => d.noteId == uuid

/-- `SELECT id, noteId, created, modified, pageNum FROM page WHERE noteId IS "<uuid>"`. -/
def queryPages (db : SourceDB) (uuid : String) : List PageRow :=
  db.pages.filter fun p => p.noteId == uuid

/-- `SELECT imageId, pageId, toDelete FROM image WHERE pageId IS "<pageId>"`. -/
def queryImages (db : SourceDB) (pageId : String) : List ImageRow :=
  db.images.filter fun im => im.pageId == pageId

/-- The final value of the loop variable `documentId` after
`documentId = ''` and `for documentId, noteId in pdf_sql_vals: ...`:
the last queried document identifier, or `''` when no row exists. -/
def lastDocumentId (docs : List DocumentRow) : String :=
  docs.foldl (fun _ d => d.documentId) ""

/-- A row of the output `page` table, as inserted at lines 292–295:
the source page columns extended with the resolved `documentId`. -/
structure PageInsert where
  id : String
  noteId : String
  created : Int
  modified : Int
  pageNum : Int
  documentId : String
deriving DecidableEq

/-! ## Container synthesis (`main`, lines 199–372) -/

/-- Python `list(set(xs))`: the distinct elements, order unspecified
(modelled by `List.dedup`). -/
def pySet (l : List String) : List String :=
  l.dedup

/-- Output member path `data/pages/<id>.page`. -/
def pageMemberName (p : String) : String :=
  "data/pages/" ++ p ++ ".page"

/-- Output member path `data/imgs/<id>`. -/
def imgMemberName (i : String) : String :=
  "data/imgs/" ++ i

/-- Output member path `data/docs/<id>`. -/
def docMemberName (d : String) : String :=
  "data/docs/" ++ d

/-- The failure raised when a member is absent from the source archive
(`KeyError` from `ZipFile.open(name, 'r')`). -/
inductive ExtractErr where
  | missingMember (name : String)
deriving DecidableEq

/-- One asset-copy loop (e.g. lines 346–351): for each identifier, open a new
member `mk x` in the output archive, then stream the same-named member from the
source.
Returns the member names written and the first missing-member failure, if any;
the output member is opened (and hence written, empty) before the source read
fails, and the loop stops at the first failure. -/
def copyLoop (src : List String) (mk : String → String) : List String → List String × Option ExtractErr
  | [] => ([], none)
  | x :: rest =>
    if mk x ∈ src then
      ((mk x) :: (copyLoop src mk rest).1, (copyLoop src mk rest).2)
    else
      ([mk x], some (ExtractErr.missingMember (mk x)))

/-- The three asset-copy sections of lines 326–367, in program order: the
`data/pages` marker and page assets, then (only if no failure so far) the
`data/imgs` marker and image assets, then the `data/docs` marker and PDF
assets. An uncaught failure aborts the remaining sections. -/
def copySections (src : List String) (pageSet imageSet pdfSet : List String) :
    List String × Option ExtractErr :=
  if (copyLoop src pageMemberName pageSet).2 = none then
    if (copyLoop src imgMemberName imageSet).2 = none then
      (["data/pages/.metadata"] ++ (copyLoop src pageMemberName pageSet).1 ++
        ["data/imgs/.metadata"] ++ (copyLoop src imgMemberName imageSet).1 ++
        ["data/docs/.metadata"] ++ (copyLoop src docMemberName pdfSet).1,
        (copyLoop src docMemberName pdfSet).2)
    else
      (["data/pages/.metadata"] ++ (copyLoop src pageMemberName pageSet).1 ++
        ["data/imgs/.metadata"] ++ (copyLoop src imgMemberName imageSet).1,
        (copyLoop src imgMemberName imageSet).2)
  else
    (["data/pages/.metadata"] ++ (copyLoop src pageMemberName pageSet).1,
      (copyLoop src pageMemberName pageSet).2)

/-- The observable outcome of extracting one record (lines 199–372): the
member names written to the output archive `<slug>.squidnote` (in write
order), the rows inserted into the scratch `note.db`, and the failure that
aborted the extraction, if any. The output archive file exists on disk as soon
as `zipfile.ZipFile(sn_file, 'w')` opens it, and the `with` block closes (not
deletes) it on an exception, so `members` is the on-disk content in both the
success and the failure case. -/
structure ExtractResult where
  members : List String
  noteRows : List (String × String × Int × Int)
  docRows : List DocumentRow
  pageRows : List PageInsert
  imageRows : List ImageRow
  err : Option ExtractErr
deriving DecidableEq

/-- Extraction of one selected record `(uuid, nn, ts)` from the source store
`db` and source archive `src` (lines 199–372). The scratch `note.db` is fully
populated before any asset copying starts, so its row content is independent
of copy failures; `info.json` and `note.db` are written to the archive before
the asset sections. -/
def extractNote (db : SourceDB) (src : List String) (uuid nn : String) (ts : Int) :
    ExtractResult :=
  let docs := queryDocuments db uuid
  let pdfs := docs.map fun d => d.documentId
  let documentId := lastDocumentId docs
  let pages := queryPages db uuid
  let pagesExt := pages.map fun p =>
    PageInsert.mk p.id p.noteId p.created p.modified p.pageNum documentId
  let imgRows := pages.flatMap fun p => queryImages db p.id
  let images := imgRows.map fun im => im.imageId
  let pageSet := pySet (pages.map fun p => p.id)
  let cs := copySections src pageSet (pySet images) (pySet pdfs)
  { members := ["info.json", "note.db"] ++ cs.1
    noteRows := [(uuid, nn, ts, ts)]
    docRows := docs
    pageRows := pagesExt
    imageRows := imgRows
    err := cs.2 }

/-! ## The command-line driver (`main`) -/

/-- The parsed command-line arguments consumed after `parser.parse_args()`
(the `--version` early exit is not modelled). -/
structure Args where
  filename : String
  regex : Option Pattern
  list : Bool
  extract : Bool
  all : Bool
  dryRun : Bool
  quiet : Bool

/-- Output archive file name: `slugify(nn) + '.squidnote'` (line 196). -/
def outputFileName (nn : String) : String :=
  slugify nn ++ ".squidnote"

/-- The extraction loop of lines 195–372: records are processed in `note_list`
order; an uncaught extraction failure aborts the whole loop, but the output
file of the failing record has already been created on disk and remains
there. -/
def extractSelected (db : SourceDB) (src : List String) :
    List NoteEntry → List (String × ExtractResult)
  | [] => []
  | e :: rest =>
    if (extractNote db src e.uuid e.nn e.ts).err = none then
      (outputFileName e.nn, extractNote db src e.uuid e.nn e.ts) :: extractSelected db src rest
    else
      [(outputFileName e.nn, extractNote db src e.uuid e.nn e.ts)]

/-- The observable outcome of one program run: whether the dry-run banner is
printed, the `--list` output lines, and the output archive files present on
disk when the run ends (name and content of each). -/
structure RunResult where
  dryRunMessage : Bool
  listing : List String
  outputs : List (String × ExtractResult)

/-- The driver logic of `main` after argument parsing: compile the pattern
(`'.*'` when absent), build `note_list`, then either list (`-l`) or extract
(`-x`). `args.dryRun` is consulted only for the banner message (lines
153–154); `args.all` is never consulted at all. -/
def mainRun (off : Int) (args : Args) (db : SourceDB) (src : List String) : RunResult :=
  let p := args.regex.getD matchAll
  let nl := noteListOf off p db
  { dryRunMessage := args.dryRun && !args.quiet
    listing := if args.list then listingLines nl else []
    outputs := if args.list then [] else if args.extract then extractSelected db src nl else [] }

/-! ## Auxiliary lemmas about the embedding -/

theorem foldl_docId_getLast :
    ∀ (l : List DocumentRow) (d : DocumentRow) (b : String),
      l.getLast? = some d → l.foldl (fun _ x => x.documentId) b = d.documentId
  | [], _, _, h => by simp at h
  | [x], d, b, h => by
    simp [List.getLast?] at h
    simp [h]
  | x :: y :: ys, d, b, h => by
    rw [List.getLast?_cons_cons] at h
    simpa [List.foldl] using foldl_docId_getLast (y :: ys) d x.documentId h

theorem lastDocumentId_eq_getLast (l : List DocumentRow) (d : DocumentRow)
    (h : l.getLast? = some d) : lastDocumentId l = d.documentId :=
  foldl_docId_getLast l d "" h

theorem extractNote_pageRows (db : SourceDB) (src : List String) (uuid nn : String) (ts : Int) :
    (extractNote db src uuid nn ts).pageRows =
      (queryPages db uuid).map fun p =>
        PageInsert.mk p.id p.noteId p.created p.modified p.pageNum
          (lastDocumentId (queryDocuments db uuid)) :=
  rfl

theorem extractNote_imageRows (db : SourceDB) (src : List String) (uuid nn : String) (ts : Int) :
    (extractNote db src uuid nn ts).imageRows =
      (queryPages db uuid).flatMap fun p => queryImages db p.id :=
  rfl

theorem extractNote_members (db : SourceDB) (src : List String) (uuid nn : String) (ts : Int) :
    (extractNote db src uuid nn ts).members =
      ["info.json", "note.db"] ++
        (copySections src (pySet ((queryPages db uuid).map fun p => p.id))
          (pySet (((queryPages db uuid).flatMap fun p => queryImages db p.id).map fun im => im.imageId))
          (pySet ((queryDocuments db uuid).map fun d => d.documentId))).1 :=
  rfl

theorem extractNote_err (db : SourceDB) (src : List String) (uuid nn : String) (ts : Int) :
    (extractNote db src uuid nn ts).err =
      (copySections src (pySet ((queryPages db uuid).map fun p => p.id))
        (pySet (((queryPages db uuid).flatMap fun p => queryImages db p.id).map fun im => im.imageId))
        (pySet ((queryDocuments db uuid).map fun d => d.documentId))).2 :=
  rfl

theorem copyLoop_snd_none_iff (src : List String) (mk : String → String) :
    ∀ l : List String, (copyLoop src mk l).2 = none ↔ ∀ x ∈ l, mk x ∈ src := by
  intro l
  induction l with
  | nil => simp [copyLoop]
  | cons x rest ih =>
    by_cases h : mk x ∈ src
    · simp [copyLoop, h, ih]
    · simp [copyLoop, h]

theorem copyLoop_of_forall (src : List String) (mk : String → String) :
    ∀ l : List String, (∀ x ∈ l, mk x ∈ src) → copyLoop src mk l = (l.map mk, none) := by
  intro l
  induction l with
  | nil => intro _; rfl
  | cons x rest ih =>
    intro h
    have hx : mk x ∈ src := h x (List.mem_cons_self x rest)
    have hr := ih fun y hy => h y (List.mem_cons_of_mem x hy)
    simp [copyLoop, hx, hr]

theorem copySections_snd_none_iff (src a b c : List String) :
    (copySections src a b c).2 = none ↔
      (∀ x ∈ a, pageMemberName x ∈ src) ∧ (∀ x ∈ b, imgMemberName x ∈ src) ∧
        (∀ x ∈ c, docMemberName x ∈ src) := by
  unfold copySections
  by_cases h1 : (copyLoop src pageMemberName a).2 = none
  · rw [if_pos h1]
    have g1 := (copyLoop_snd_none_iff src pageMemberName a).mp h1
    by_cases h2 : (copyLoop src imgMemberName b).2 = none
    · rw [if_pos h2]
      have g2 := (copyLoop_snd_none_iff src imgMemberName b).mp h2
      rw [copyLoop_snd_none_iff]
      exact ⟨fun h => ⟨g1, g2, h⟩, fun h => h.2.2⟩
    · rw [if_neg h2]
      have g2 : ¬∀ x ∈ b, imgMemberName x ∈ src :=
        fun hh => h2 ((copyLoop_snd_none_iff src imgMemberName b).mpr hh)
      simp [h2, g2]
  · rw [if_neg h1]
    have g1 : ¬∀ x ∈ a, pageMemberName x ∈ src :=
      fun hh => h1 ((copyLoop_snd_none_iff src pageMemberName a).mpr hh)
    simp [h1, g1]

theorem copySections_of_forall (src a b c : List String)
    (h1 : ∀ x ∈ a, pageMemberName x ∈ src) (h2 : ∀ x ∈ b, imgMemberName x ∈ src)
    (h3 : ∀ x ∈ c, docMemberName x ∈ src) :
    copySections src a b c =
      (["data/pages/.metadata"] ++ a.map pageMemberName ++ ["data/imgs/.metadata"] ++
        b.map imgMemberName ++ ["data/docs/.metadata"] ++ c.map docMemberName, none) := by
  unfold copySections
  rw [copyLoop_of_forall src pageMemberName a h1, copyLoop_of_forall src imgMemberName b h2,
    copyLoop_of_forall src docMemberName c h3]
  simp

theorem ne_of_data_ne {s t : String} (h : s.data ≠ t.data) : s ≠ t :=
  fun he => h (congrArg String.data he)

theorem imgMemberName_inj {a b : String} (h : imgMemberName a = imgMemberName b) : a = b := by
  have h2 := congrArg String.data h
  rw [imgMemberName, imgMemberName, String.data_append, String.data_append] at h2
  exact String.ext (List.append_cancel_left h2)

theorem imgMemberName_ne_pageMemberName (a b : String) :
    imgMemberName a ≠ pageMemberName b := by
  apply ne_of_data_ne
  rw [imgMemberName, pageMemberName, String.data_append, String.data_append, String.data_append]
  rw [show ("data/imgs/" : String).data = ['d','a','t','a','/','i','m','g','s','/'] from rfl,
    show ("data/pages/" : String).data = ['d','a','t','a','/','p','a','g','e','s','/'] from rfl]
  intro h
  simp at h

theorem imgMemberName_ne_docMemberName (a b : String) :
    imgMemberName a ≠ docMemberName b := by
  apply ne_of_data_ne
  rw [imgMemberName, docMemberName, String.data_append, String.data_append]
  rw [show ("data/imgs/" : String).data = ['d','a','t','a','/','i','m','g','s','/'] from rfl,
    show ("data/docs/" : String).data = ['d','a','t','a','/','d','o','c','s','/'] from rfl]
  intro h
  simp at h

theorem imgMemberName_ne_info (a : String) : imgMemberName a ≠ "info.json" := by
  apply ne_of_data_ne
  rw [imgMemberName, String.data_append]
  rw [show ("data/imgs/" : String).data = ['d','a','t','a','/','i','m','g','s','/'] from rfl,
    show ("info.json" : String).data = ['i','n','f','o','.','j','s','o','n'] from rfl]
  intro h
  simp at h

theorem imgMemberName_ne_notedb (a : String) : imgMemberName a ≠ "note.db" := by
  apply ne_of_data_ne
  rw [imgMemberName, String.data_append]
  rw [show ("data/imgs/" : String).data = ['d','a','t','a','/','i','m','g','s','/'] from rfl,
    show ("note.db" : String).data = ['n','o','t','e','.','d','b'] from rfl]
  intro h
  simp at h

theorem imgMemberName_ne_pagesMeta (a : String) :
    imgMemberName a ≠ "data/pages/.metadata" := by
  apply ne_of_data_ne
  rw [imgMemberName, String.data_append]
  rw [show ("data/imgs/" : String).data = ['d','a','t','a','/','i','m','g','s','/'] from rfl,
    show ("data/pages/.metadata" : String).data =
      ['d','a','t','a','/','p','a','g','e','s','/','.','m','e','t','a','d','a','t','a'] from rfl]
  intro h
  simp at h

theorem imgMemberName_ne_docsMeta (a : String) :
    imgMemberName a ≠ "data/docs/.metadata" := by
  apply ne_of_data_ne
  rw [imgMemberName, String.data_append]
  rw [show ("data/imgs/" : String).data = ['d','a','t','a','/','i','m','g','s','/'] from rfl,
    show ("data/docs/.metadata" : String).data =
      ['d','a','t','a','/','d','o','c','s','/','.','m','e','t','a','d','a','t','a'] from rfl]
  intro h
  simp at h

theorem imgMemberName_eq_imgsMeta_iff (a : String) :
    imgMemberName a = "data/imgs/.metadata" ↔ a = ".metadata" :=
  ⟨fun h => imgMemberName_inj (h.trans rfl), fun h => h ▸ rfl⟩

theorem mem_pySet {a : String} {l : List String} : a ∈ pySet l ↔ a ∈ l :=
  List.mem_dedup

/-! ## Claim theorems -/

/-- C2: for every record whose document query returns at least one row, every
page row inserted into the output store carries the identifier of the last
document row returned by the document query (the loop variable `documentId`
is left at the last queried document identifier and is spliced into every
extended page tuple). -/
theorem c2_last_document_propagated (db : SourceDB) (src : List String) (uuid nn : String)
    (ts : Int) (d : DocumentRow) (hlast : (queryDocuments db uuid).getLast? = some d) :
    ∀ pr ∈ (extractNote db src uuid nn ts).pageRows, pr.documentId = d.documentId := by
  intro pr hpr
  rw [extractNote_pageRows] at hpr
  obtain ⟨p, _, hp⟩ := List.mem_map.mp hpr
  rw [← hp]
  exact lastDocumentId_eq_getLast _ d hlast

/-- Witness for C2: a record with two document rows `d1, d2` and one page; the
inserted page row carries `d2`, the last queried document identifier. -/
theorem c2_last_document_propagated_witness :
    ((queryDocuments ⟨[⟨"n1", "A", 0⟩], [⟨"p1", "n1", 0, 0, 1⟩], [],
        [⟨"d1", "n1"⟩, ⟨"d2", "n1"⟩]⟩ "n1").getLast? = some ⟨"d2", "n1"⟩) ∧
    ∀ pr ∈ (extractNote ⟨[⟨"n1", "A", 0⟩], [⟨"p1", "n1", 0, 0, 1⟩], [],
        [⟨"d1", "n1"⟩, ⟨"d2", "n1"⟩]⟩ [] "n1" "A" 0).pageRows, pr.documentId = "d2" :=
  ⟨by decide, fun pr h =>
    c2_last_document_propagated ⟨[⟨"n1", "A", 0⟩], [⟨"p1", "n1", 0, 0, 1⟩], [],
      [⟨"d1", "n1"⟩, ⟨"d2", "n1"⟩]⟩ [] "n1" "A" 0 ⟨"d2", "n1"⟩ (by decide) pr h⟩

/-- C10: for a record owning no document rows, the loop variable `documentId`
keeps its initial value `''`, so every inserted page row has `documentId`
equal to the empty string (not NULL or absent). -/
theorem c10_no_documents_empty_string (db : SourceDB) (src : List String) (uuid nn : String)
    (ts : Int) (hnone : queryDocuments db uuid = []) :
    ∀ pr ∈ (extractNote db src uuid nn ts).pageRows, pr.documentId = "" := by
  intro pr hpr
  rw [extractNote_pageRows] at hpr
  obtain ⟨p, _, hp⟩ := List.mem_map.mp hpr
  rw [← hp, hnone]
  rfl

/-- Witness for C10: a record with one page and no document rows; the inserted
page row's `documentId` is `""`. -/
theorem c10_no_documents_empty_string_witness :
    (queryDocuments ⟨[⟨"n1", "A", 0⟩], [⟨"p1", "n1", 0, 0, 1⟩], [], []⟩ "n1" = []) ∧
    ∀ pr ∈ (extractNote ⟨[⟨"n1", "A", 0⟩], [⟨"p1", "n1", 0, 0, 1⟩], [], []⟩
        ["data/pages/p1.page"] "n1" "A" 0).pageRows, pr.documentId = "" :=
  ⟨by decide, fun pr h =>
    c10_no_documents_empty_string ⟨[⟨"n1", "A", 0⟩], [⟨"p1", "n1", 0, 0, 1⟩], [], []⟩
      ["data/pages/p1.page"] "n1" "A" 0 (by decide) pr h⟩

/-- C9: the `--all` flag is parsed but never consulted: for every environment,
argument vector, source store and source archive, the observable run outcome
(banner, listing, files written) is identical whatever the value of the `all`
flag. -/
theorem c9_all_flag_no_effect (off : Int) (args : Args) (b : Bool) (db : SourceDB)
    (src : List String) :
    mainRun off { args with all := b } db src = mainRun off args db src := by
  cases args
  rfl

/-- C4 (code bug): with `--extract --dry-run` set, the program prints the
dry-run banner but still creates and fully writes the output archive on disk —
`args.dry_run` is consulted only for the banner (lines 153–154), never to
suppress synthesis. -/
theorem c4_dry_run_still_writes :
    (mainRun 0 ⟨"backup.zip", none, false, true, false, true, false⟩
      ⟨[⟨"n1", "Note", 1000⟩], [], [], []⟩ []).dryRunMessage = true ∧
    (mainRun 0 ⟨"backup.zip", none, false, true, false, true, false⟩
      ⟨[⟨"n1", "Note", 1000⟩], [], [], []⟩ []).outputs =
      [("Note.squidnote",
        extractNote ⟨[⟨"n1", "Note", 1000⟩], [], [], []⟩ [] "n1" "Note" 1000)] ∧
    (extractNote ⟨[⟨"n1", "Note", 1000⟩], [], [], []⟩ [] "n1" "Note" 1000).members =
      ["info.json", "note.db", "data/pages/.metadata", "data/imgs/.metadata",
        "data/docs/.metadata"] :=
  ⟨rfl, by decide, by decide⟩

/-- C5 (counterexample): a record whose page asset `data/pages/p1.page` is
absent from the source archive fails with `MissingMember`, yet the
partially-written output container `NoteE.squidnote` remains on disk, holding
the members written before the failure — it is not discarded. -/
theorem c5_truncated_output_counterexample :
    (extractNote ⟨[⟨"n1", "NoteE", 0⟩], [⟨"p1", "n1", 0, 0, 1⟩], [], []⟩ [] "n1" "NoteE" 0).err =
      some (ExtractErr.missingMember "data/pages/p1.page") ∧
    (extractNote ⟨[⟨"n1", "NoteE", 0⟩], [⟨"p1", "n1", 0, 0, 1⟩], [], []⟩ []
        "n1" "NoteE" 0).members =
      ["info.json", "note.db", "data/pages/.metadata", "data/pages/p1.page"] ∧
    (mainRun 0 ⟨"backup.zip", none, false, true, false, false, false⟩
      ⟨[⟨"n1", "NoteE", 0⟩], [⟨"p1", "n1", 0, 0, 1⟩], [], []⟩ []).outputs =
      [("NoteE.squidnote",
        extractNote ⟨[⟨"n1", "NoteE", 0⟩], [⟨"p1", "n1", 0, 0, 1⟩], [], []⟩ [] "n1" "NoteE" 0)] :=
  ⟨by decide, by decide, by decide⟩

/-- C5 (amended): on a `MissingMember` failure the run aborts, but the failing
record's partially-written output container remains on disk and is non-empty —
it still contains at least `info.json` and `note.db`. -/
theorem c5_truncated_artifact_remains (db : SourceDB) (src : List String) (l : List NoteEntry) :
    ∀ fr ∈ extractSelected db src l, fr.2.err.isSome = true →
      fr.2.members ≠ [] ∧ "info.json" ∈ fr.2.members ∧ "note.db" ∈ fr.2.members := by
  induction l with
  | nil =>
    intro fr h
    simp [extractSelected] at h
  | cons e rest ih =>
    intro fr hfr hsome
    by_cases herr : (extractNote db src e.uuid e.nn e.ts).err = none
    · simp only [extractSelected] at hfr
      rw [if_pos herr] at hfr
      rcases List.mem_cons.mp hfr with hfr | hfr
      · subst hfr
        refine ⟨?_, ?_, ?_⟩ <;> simp [extractNote_members]
      · exact ih fr hfr hsome
    · simp only [extractSelected] at hfr
      rw [if_neg herr] at hfr
      rcases List.mem_singleton.mp hfr with rfl
      refine ⟨?_, ?_, ?_⟩ <;> simp [extractNote_members]

/-- Witness for C5 (amended): the failing record of the counterexample keeps a
non-empty partial container holding `info.json` and `note.db`. -/
theorem c5_truncated_artifact_remains_witness :
    (("NoteE.squidnote",
        extractNote ⟨[⟨"n1", "NoteE", 0⟩], [⟨"p1", "n1", 0, 0, 1⟩], [], []⟩ [] "n1" "NoteE" 0) ∈
      extractSelected ⟨[⟨"n1", "NoteE", 0⟩], [⟨"p1", "n1", 0, 0, 1⟩], [], []⟩ []
        [⟨"n1", "NoteE", "1970-01-01 00:00:00", 0⟩]) ∧
    ((extractNote ⟨[⟨"n1", "NoteE", 0⟩], [⟨"p1", "n1", 0, 0, 1⟩], [], []⟩ []
        "n1" "NoteE" 0).err.isSome = true) ∧
    ((extractNote ⟨[⟨"n1", "NoteE", 0⟩], [⟨"p1", "n1", 0, 0, 1⟩], [], []⟩ []
        "n1" "NoteE" 0).members ≠ [] ∧
      "info.json" ∈ (extractNote ⟨[⟨"n1", "NoteE", 0⟩], [⟨"p1", "n1", 0, 0, 1⟩], [], []⟩ []
        "n1" "NoteE" 0).members ∧
      "note.db" ∈ (extractNote ⟨[⟨"n1", "NoteE", 0⟩], [⟨"p1", "n1", 0, 0, 1⟩], [], []⟩ []
        "n1" "NoteE" 0).members) :=
  ⟨by decide, by decide,
    c5_truncated_artifact_remains ⟨[⟨"n1", "NoteE", 0⟩], [⟨"p1", "n1", 0, 0, 1⟩], [], []⟩ []
      [⟨"n1", "NoteE", "1970-01-01 00:00:00", 0⟩]
      ("NoteE.squidnote",
        extractNote ⟨[⟨"n1", "NoteE", 0⟩], [⟨"p1", "n1", 0, 0, 1⟩], [], []⟩ [] "n1" "NoteE" 0)
      (by decide) (by decide)⟩

/-- C3 (counterexample): an image asset absent from the source archive is NOT
skipped — extraction fails with `MissingMember data/imgs/i1` even though the
page asset is present, and the image row has nevertheless been inserted into
the output store; a missing background document fails the same way. -/
theorem c3_missing_asset_counterexample :
    (extractNote ⟨[⟨"n1", "A", 0⟩], [⟨"p1", "n1", 0, 0, 1⟩], [⟨"i1", "p1", 0⟩], []⟩
        ["data/pages/p1.page"] "n1" "A" 0).err =
      some (ExtractErr.missingMember "data/imgs/i1") ∧
    (extractNote ⟨[⟨"n1", "A", 0⟩], [⟨"p1", "n1", 0, 0, 1⟩], [⟨"i1", "p1", 0⟩], []⟩
        ["data/pages/p1.page"] "n1" "A" 0).imageRows = [⟨"i1", "p1", 0⟩] ∧
    (extractNote ⟨[⟨"n1", "A", 0⟩], [], [], [⟨"d1", "n1"⟩]⟩ [] "n1" "A" 0).err =
      some (ExtractErr.missingMember "data/docs/d1") :=
  ⟨by decide, by decide, by decide⟩

/-- C3 (amended): asset copying treats all three categories alike — extraction
of a record succeeds iff every referenced page, image and background-document
asset member is present in the source archive; any absent asset of any
category is a hard `MissingMember` failure, and no category is skipped. -/
theorem c3_all_categories_hard_fail (db : SourceDB) (src : List String) (uuid nn : String)
    (ts : Int) :
    (extractNote db src uuid nn ts).err = none ↔
      ((∀ pid ∈ (queryPages db uuid).map (fun p => p.id), pageMemberName pid ∈ src) ∧
       (∀ iid ∈ ((queryPages db uuid).flatMap fun p => queryImages db p.id).map
          (fun im => im.imageId), imgMemberName iid ∈ src) ∧
       (∀ did ∈ (queryDocuments db uuid).map (fun d => d.documentId),
          docMemberName did ∈ src)) := by
  rw [extractNote_err, copySections_snd_none_iff]
  constructor
  · rintro ⟨h1, h2, h3⟩
    exact ⟨fun x hx => h1 x (mem_pySet.mpr hx), fun x hx => h2 x (mem_pySet.mpr hx),
      fun x hx => h3 x (mem_pySet.mpr hx)⟩
  · rintro ⟨h1, h2, h3⟩
    exact ⟨fun x hx => h1 x (mem_pySet.mp hx), fun x hx => h2 x (mem_pySet.mp hx),
      fun x hx => h3 x (mem_pySet.mp hx)⟩

/-- Witness for C3 (amended): with all three referenced assets present the
extraction succeeds. -/
theorem c3_all_categories_hard_fail_witness :
    (extractNote ⟨[⟨"n1", "A", 0⟩], [⟨"p1", "n1", 0, 0, 1⟩], [⟨"i1", "p1", 0⟩], [⟨"d1", "n1"⟩]⟩
        ["data/pages/p1.page", "data/imgs/i1", "data/docs/d1"] "n1" "A" 0).err = none :=
  (c3_all_categories_hard_fail
    ⟨[⟨"n1", "A", 0⟩], [⟨"p1", "n1", 0, 0, 1⟩], [⟨"i1", "p1", 0⟩], [⟨"d1", "n1"⟩]⟩
    ["data/pages/p1.page", "data/imgs/i1", "data/docs/d1"] "n1" "A" 0).mpr (by decide)

theorem filterMap_if_eq_map_filter {α β : Type _} (f : α → β) (q : α → Bool) :
    ∀ l : List α, (l.filterMap fun r => if q r then some (f r) else none) = (l.filter q).map f := by
  intro l
  induction l with
  | nil => rfl
  | cons x t ih =>
    by_cases h : q x
    · simp [List.filterMap_cons, List.filter_cons, h, ih]
    · simp [List.filterMap_cons, List.filter_cons, h, ih]

theorem noteListOf_eq (off : Int) (p : Pattern) (db : SourceDB) :
    noteListOf off p db =
      ((sortNotes db.notes).filter (selectedNote off p)).map (noteEntry off) :=
  filterMap_if_eq_map_filter (noteEntry off) (selectedNote off p) (sortNotes db.notes)

theorem filter_eq_singleton_of_count {α : Type _} [DecidableEq α] (q : α → Bool) (R : α) :
    ∀ l : List α, List.count R l = 1 → q R = true →
      (∀ x ∈ l, x ≠ R → q x = false) → l.filter q = [R]
  | [], hc, _, _ => by simp at hc
  | x :: t, hc, hqR, hother => by
    by_cases hx : x = R
    · subst hx
      have hct : List.count x t = 0 := by
        have h1 : List.count x (x :: t) = List.count x t + 1 := List.count_cons_self x t
        omega
      have hnot : x ∉ t := by
        intro hmem
        have h2 := List.count_pos_iff.mpr hmem
        omega
      have ht : t.filter q = [] := by
        apply List.filter_eq_nil_iff.mpr
        intro y hy
        have hyne : y ≠ x := fun he => hnot (he ▸ hy)
        simp [hother y (List.mem_cons_of_mem x hy) hyne]
      rw [List.filter_cons, if_pos hqR, ht]
    · have hqx : q x = false := hother x (List.mem_cons_self x t) hx
      have hct : List.count R t = 1 := by
        rwa [List.count_cons_of_ne (fun he => hx he.symm)] at hc
      rw [List.filter_cons, if_neg (by simp [hqx])]
      exact filter_eq_singleton_of_count q R t hct hqR
        (fun y hy hne => hother y (List.mem_cons_of_mem x hy) hne)

/-- C6: with no pattern (the compiled `'.*'` matches everything), selection
returns exactly one entry per note row of the source store — the result's
length is N, it is a permutation of the per-row entries, and it is ordered by
ascending modification timestamp, by the explicit `ORDER BY modified ASC`. -/
theorem c6_no_pattern_returns_all_sorted (off : Int) (db : SourceDB) :
    (noteListOf off matchAll db).length = db.notes.length ∧
    (noteListOf off matchAll db).Perm (db.notes.map (noteEntry off)) ∧
    List.Sorted (fun a b : NoteEntry => a.ts ≤ b.ts) (noteListOf off matchAll db) := by
  have he : noteListOf off matchAll db = (sortNotes db.notes).map (noteEntry off) := by
    rw [noteListOf_eq]
    congr 1
    apply List.filter_eq_self.mpr
    intro r _
    rfl
  refine ⟨?_, ?_, ?_⟩
  · rw [he, List.length_map]
    exact (List.perm_insertionSort noteLE db.notes).length_eq
  · rw [he]
    exact (List.perm_insertionSort noteLE db.notes).map (noteEntry off)
  · rw [he]
    exact List.Pairwise.map (noteEntry off) (fun a b hab => hab)
      (List.sorted_insertionSort noteLE db.notes)

/-- C7: a record is selected iff the pattern accepts (match-from-start) its
identifier, or its synthesised/raw name, or its formatted modification time,
in that order; consequently a pattern accepting R's identifier and no field
of any other record selects exactly the singleton `[R]`. (Identifiers are
assumed unique — `note.id` is the primary key of the source table.) -/
theorem c7_pattern_selects_singleton (off : Int) (p : Pattern) (db : SourceDB) (R : NoteRow)
    (hmem : R ∈ db.notes)
    (hids : (db.notes.map fun r => r.id).Nodup)
    (hid : p R.id = true)
    (hothers : ∀ S ∈ db.notes, S.id ≠ R.id →
        p S.id = false ∧ p (dispName off S) = false ∧ p (mtimeOf off S) = false) :
    (∀ S : NoteRow, selectedNote off p S =
      (p S.id || p (dispName off S) || p (mtimeOf off S))) ∧
    noteListOf off p db = [noteEntry off R] := by
  refine ⟨fun S => rfl, ?_⟩
  rw [noteListOf_eq]
  have hperm : (sortNotes db.notes).Perm db.notes := List.perm_insertionSort noteLE db.notes
  have hcount : List.count R (sortNotes db.notes) = 1 := by
    rw [hperm.count_eq]
    exact List.count_eq_one_of_mem (List.Nodup.of_map _ hids) hmem
  have hsel : selectedNote off p R = true := by
    simp [selectedNote, hid]
  have hother2 : ∀ x ∈ sortNotes db.notes, x ≠ R → selectedNote off p x = false := by
    intro x hx hne
    have hx2 : x ∈ db.notes := hperm.mem_iff.mp hx
    have hxid : x.id ≠ R.id := by
      intro he
      exact hne (List.inj_on_of_nodup_map hids hx2 hmem he)
    obtain ⟨h1, h2, h3⟩ := hothers x hx2 hxid
    simp [selectedNote, h1, h2, h3]
  rw [filter_eq_singleton_of_count (selectedNote off p) R (sortNotes db.notes) hcount hsel
    hother2]
  rfl

/-- Witness for C7: a pattern accepting exactly the string `bbb` selects, from
two notes `aaa` and `bbb`, precisely the singleton entry of `bbb`. -/
theorem c7_pattern_selects_singleton_witness :
    ((fun s => s == "bbb") ("bbb" : String) = true) ∧
    noteListOf 0 (fun s => s == "bbb")
        ⟨[⟨"aaa", "X", 1000⟩, ⟨"bbb", "Y", 2000⟩], [], [], []⟩ =
      [noteEntry 0 ⟨"bbb", "Y", 2000⟩] :=
  ⟨by decide, (c7_pattern_selects_singleton 0 (fun s => s == "bbb")
    ⟨[⟨"aaa", "X", 1000⟩, ⟨"bbb", "Y", 2000⟩], [], [], []⟩ ⟨"bbb", "Y", 2000⟩
    (by decide) (by decide) (by decide) (by decide)).2⟩

/-- C8 (counterexample): for the note `N1` with empty name and
`modified = 1690000000000`, UTC-naive formatting yields
`Untitled_20230722-042640`, not the claimed `Untitled_20230722-090640`; in the
environment (UTC+16800s) where the claimed name IS produced, the listing line
shows `09:06:40`, so it differs from the claimed line containing `09:04:40` —
the name and listing of the claim cannot both occur. -/
theorem c8_time_format_counterexample :
    dispName 0 ⟨"N1", "", 1690000000000⟩ = "Untitled_20230722-042640" ∧
    dispName 0 ⟨"N1", "", 1690000000000⟩ ≠ "Untitled_20230722-090640" ∧
    dispName 16800 ⟨"N1", "", 1690000000000⟩ = "Untitled_20230722-090640" ∧
    listingLines (noteListOf 16800 matchAll ⟨[⟨"N1", "", 1690000000000⟩], [], [], []⟩) =
      ["0001/0001 N1 \"2023-07-22 09:06:40\" \"Untitled_20230722-090640\""] ∧
    ("0001/0001 N1 \"2023-07-22 09:06:40\" \"Untitled_20230722-090640\"" : String) ≠
      "0001/0001 N1 \"2023-07-22 09:04:40\" \"Untitled_20230722-090640\"" :=
  ⟨by decide, by decide, by decide, by decide, by decide⟩

/-- C8 (amended): for the sole note `N1` with empty name and
`modified = 1690000000000`, the synthesised name is `'Untitled_' +` the
`%Y%m%d-%H%M%S` rendering and the listing time the `%Y-%m-%d %H:%M:%S`
rendering of the same local time: under UTC they are
`Untitled_20230722-042640` and
`0001/0001 N1 "2023-07-22 04:26:40" "Untitled_20230722-042640"`; at UTC+16800s
they are `Untitled_20230722-090640` and
`0001/0001 N1 "2023-07-22 09:06:40" "Untitled_20230722-090640"`. -/
theorem c8_untitled_name_and_listing :
    noteListOf 0 matchAll ⟨[⟨"N1", "", 1690000000000⟩], [], [], []⟩ =
      [⟨"N1", "Untitled_20230722-042640", "2023-07-22 04:26:40", 1690000000000⟩] ∧
    listingLines (noteListOf 0 matchAll ⟨[⟨"N1", "", 1690000000000⟩], [], [], []⟩) =
      ["0001/0001 N1 \"2023-07-22 04:26:40\" \"Untitled_20230722-042640\""] ∧
    noteListOf 16800 matchAll ⟨[⟨"N1", "", 1690000000000⟩], [], [], []⟩ =
      [⟨"N1", "Untitled_20230722-090640", "2023-07-22 09:06:40", 1690000000000⟩] ∧
    listingLines (noteListOf 16800 matchAll ⟨[⟨"N1", "", 1690000000000⟩], [], [], []⟩) =
      ["0001/0001 N1 \"2023-07-22 09:06:40\" \"Untitled_20230722-090640\""] :=
  ⟨by decide, by decide, by decide, by decide⟩

theorem count_pageMember_map_eq_zero (aid : String) (l : List String) :
    List.count (imgMemberName aid) (l.map pageMemberName) = 0 := by
  apply List.count_eq_zero.mpr
  intro hmem
  obtain ⟨b, _, hb⟩ := List.mem_map.mp hmem
  exact imgMemberName_ne_pageMemberName aid b hb.symm

theorem count_docMember_map_eq_zero (aid : String) (l : List String) :
    List.count (imgMemberName aid) (l.map docMemberName) = 0 := by
  apply List.count_eq_zero.mpr
  intro hmem
  obtain ⟨b, _, hb⟩ := List.mem_map.mp hmem
  exact imgMemberName_ne_docMemberName aid b hb.symm

theorem count_imgMember_map_eq_one (aid : String) (l : List String) (hnd : l.Nodup)
    (hm : aid ∈ l) : List.count (imgMemberName aid) (l.map imgMemberName) = 1 :=
  List.count_eq_one_of_mem (hnd.map fun _ _ h => imgMemberName_inj h)
    (List.mem_map_of_mem imgMemberName hm)

/-- C1: for every successfully extracted record, asset deduplication holds:
the output store receives one image row per source image row of the record's
pages (row duplication allowed), while the output archive contains exactly one
`data/imgs/<id>` member for each referenced image identifier (asset
duplication forbidden; `<id> ≠ ".metadata"` keeps the identifier clear of the
fixed marker member's name). -/
theorem c1_image_rows_and_asset_dedup (db : SourceDB) (src : List String) (uuid nn : String)
    (ts : Int) (hok : (extractNote db src uuid nn ts).err = none) :
    (extractNote db src uuid nn ts).imageRows =
      ((queryPages db uuid).flatMap fun p => queryImages db p.id) ∧
    ∀ aid ∈ ((extractNote db src uuid nn ts).imageRows.map fun im => im.imageId),
      aid ≠ ".metadata" →
        List.count (imgMemberName aid) (extractNote db src uuid nn ts).members = 1 := by
  refine ⟨extractNote_imageRows db src uuid nn ts, ?_⟩
  intro aid haid hmeta
  rw [extractNote_imageRows] at haid
  rw [extractNote_err] at hok
  obtain ⟨h1, h2, h3⟩ := (copySections_snd_none_iff _ _ _ _).mp hok
  rw [extractNote_members, copySections_of_forall _ _ _ _ h1 h2 h3]
  have s1 : List.count (imgMemberName aid) ["info.json", "note.db"] = 0 := by
    apply List.count_eq_zero.mpr
    simp only [List.mem_cons, List.not_mem_nil, or_false]
    rintro (he | he)
    · exact imgMemberName_ne_info aid he
    · exact imgMemberName_ne_notedb aid he
  have s2 : List.count (imgMemberName aid) ["data/pages/.metadata"] = 0 := by
    apply List.count_eq_zero.mpr
    simp only [List.mem_singleton]
    exact imgMemberName_ne_pagesMeta aid
  have s3 : List.count (imgMemberName aid)
      ((pySet ((queryPages db uuid).map fun p => p.id)).map pageMemberName) = 0 :=
    count_pageMember_map_eq_zero aid _
  have s4 : List.count (imgMemberName aid) ["data/imgs/.metadata"] = 0 := by
    apply List.count_eq_zero.mpr
    simp only [List.mem_singleton]
    intro he
    exact hmeta ((imgMemberName_eq_imgsMeta_iff aid).mp he)
  have s5 : List.count (imgMemberName aid)
      ((pySet (((queryPages db uuid).flatMap fun p => queryImages db p.id).map
        fun im => im.imageId)).map imgMemberName) = 1 :=
    count_imgMember_map_eq_one aid _ (List.nodup_dedup _)
      (mem_pySet.mpr (List.mem_map.mpr (List.mem_map.mp haid)))
  have s6 : List.count (imgMemberName aid) ["data/docs/.metadata"] = 0 := by
    apply List.count_eq_zero.mpr
    simp only [List.mem_singleton]
    exact imgMemberName_ne_docsMeta aid
  have s7 : List.count (imgMemberName aid)
      ((pySet ((queryDocuments db uuid).map fun d => d.documentId)).map docMemberName) = 0 :=
    count_docMember_map_eq_zero aid _
  simp only [List.count_append, s1, s2, s3, s4, s5, s6, s7]

/-- Witness for C1: the spec scenario — pages `pA` referencing `{i1, i2}` and
`pB` referencing `{i2, i3}` yield four inserted image rows and exactly one
archive member for each of `i1`, `i2`, `i3`. -/
theorem c1_image_rows_and_asset_dedup_witness :
    ((extractNote ⟨[⟨"n1", "A", 0⟩], [⟨"pA", "n1", 0, 0, 1⟩, ⟨"pB", "n1", 0, 0, 2⟩],
        [⟨"i1", "pA", 0⟩, ⟨"i2", "pA", 0⟩, ⟨"i2", "pB", 0⟩, ⟨"i3", "pB", 0⟩], []⟩
      ["data/pages/pA.page", "data/pages/pB.page", "data/imgs/i1", "data/imgs/i2",
        "data/imgs/i3"] "n1" "A" 0).err = none) ∧
    (extractNote ⟨[⟨"n1", "A", 0⟩], [⟨"pA", "n1", 0, 0, 1⟩, ⟨"pB", "n1", 0, 0, 2⟩],
        [⟨"i1", "pA", 0⟩, ⟨"i2", "pA", 0⟩, ⟨"i2", "pB", 0⟩, ⟨"i3", "pB", 0⟩], []⟩
      ["data/pages/pA.page", "data/pages/pB.page", "data/imgs/i1", "data/imgs/i2",
        "data/imgs/i3"] "n1" "A" 0).imageRows.length = 4 ∧
    List.count (imgMemberName "i2")
      (extractNote ⟨[⟨"n1", "A", 0⟩], [⟨"pA", "n1", 0, 0, 1⟩, ⟨"pB", "n1", 0, 0, 2⟩],
        [⟨"i1", "pA", 0⟩, ⟨"i2", "pA", 0⟩, ⟨"i2", "pB", 0⟩, ⟨"i3", "pB", 0⟩], []⟩
      ["data/pages/pA.page", "data/pages/pB.page", "data/imgs/i1", "data/imgs/i2",
        "data/imgs/i3"] "n1" "A" 0).members = 1 ∧
    List.count (imgMemberName "i1")
      (extractNote ⟨[⟨"n1", "A", 0⟩], [⟨"pA", "n1", 0, 0, 1⟩, ⟨"pB", "n1", 0, 0, 2⟩],
        [⟨"i1", "pA", 0⟩, ⟨"i2", "pA", 0⟩, ⟨"i2", "pB", 0⟩, ⟨"i3", "pB", 0⟩], []⟩
      ["data/pages/pA.page", "data/pages/pB.page", "data/imgs/i1", "data/imgs/i2",
        "data/imgs/i3"] "n1" "A" 0).members = 1 ∧
    List.count (imgMemberName "i3")
      (extractNote ⟨[⟨"n1", "A", 0⟩], [⟨"pA", "n1", 0, 0, 1⟩, ⟨"pB", "n1", 0, 0, 2⟩],
        [⟨"i1", "pA", 0⟩, ⟨"i2", "pA", 0⟩, ⟨"i2", "pB", 0⟩, ⟨"i3", "pB", 0⟩], []⟩
      ["data/pages/pA.page", "data/pages/pB.page", "data/imgs/i1", "data/imgs/i2",
        "data/imgs/i3"] "n1" "A" 0).members = 1 :=
  ⟨by decide, by decide,
    (c1_image_rows_and_asset_dedup ⟨[⟨"n1", "A", 0⟩],
      [⟨"pA", "n1", 0, 0, 1⟩, ⟨"pB", "n1", 0, 0, 2⟩],
      [⟨"i1", "pA", 0⟩, ⟨"i2", "pA", 0⟩, ⟨"i2", "pB", 0⟩, ⟨"i3", "pB", 0⟩], []⟩
      ["data/pages/pA.page", "data/pages/pB.page", "data/imgs/i1", "data/imgs/i2",
        "data/imgs/i3"] "n1" "A" 0 (by decide)).2 "i2" (by decide) (by decide),
    (c1_image_rows_and_asset_dedup ⟨[⟨"n1", "A", 0⟩],
      [⟨"pA", "n1", 0, 0, 1⟩, ⟨"pB", "n1", 0, 0, 2⟩],
      [⟨"i1", "pA", 0⟩, ⟨"i2", "pA", 0⟩, ⟨"i2", "pB", 0⟩, ⟨"i3", "pB", 0⟩], []⟩
      ["data/pages/pA.page", "data/pages/pB.page", "data/imgs/i1", "data/imgs/i2",
        "data/imgs/i3"] "n1" "A" 0 (by decide)).2 "i1" (by decide) (by decide),
    (c1_image_rows_and_asset_dedup ⟨[⟨"n1", "A", 0⟩],
      [⟨"pA", "n1", 0, 0, 1⟩, ⟨"pB", "n1", 0, 0, 2⟩],
      [⟨"i1", "pA", 0⟩, ⟨"i2", "pA", 0⟩, ⟨"i2", "pB", 0⟩, ⟨"i3", "pB", 0⟩], []⟩
      ["data/pages/pA.page", "data/pages/pB.page", "data/imgs/i1", "data/imgs/i2",
        "data/imgs/i3"] "n1" "A" 0 (by decide)).2 "i3" (by decide) (by decide)⟩
